import Mathlib

/-!
# Verification of the blockhash-accent-colors pipeline

Shallow embedding of the repository's core modules and proofs about them:

* `deriveColors.js` — SHA-256 based palette derivation (`sha256`, `deriveSingleColor`,
  `hslToHex`, `hslToCss`, `deriveColors`);
* `fetchBlockchain.js` — retry/backoff HTTP acquisition (`getBackoffDelay`,
  `fetchWithRetry`, `fetchLatestBlockHash`);
* `parseLedger.js` — hash extraction and normalization (`parseBlockHash`,
  `parseBlockArray`, `normalizeHash`, `extractBlockMetadata`, `parseLedger`);
* `publish.js` — output publication (`publishToFile`).

JavaScript numbers are embedded as exact rationals (`ℚ`); `Math.round` is
`⌊x + 1/2⌋`, matching JS semantics (round half toward +∞).  Effects (HTTP,
sleeping, the filesystem) are embedded as explicit oracles threaded through
the functions, so each run is a pure value recording the observable trace
(request count, slept delays, write attempts).
-/

deriving instance DecidableEq for Except

namespace BlockHash

/-! ## JavaScript-semantics helpers -/

/-- `Math.round x` in JavaScript: `⌊x + 1/2⌋` (half-values round toward +∞). -/
def jround (q : ℚ) : ℤ := ⌊q + 1/2⌋

/-- JS `a || b` for an optional string: `''`, `null` and `undefined` are falsy. -/
def jsOrStr (a : Option String) (b : String) : String :=
  match a with
  | some s => if s = "" then b else s
  | none => b

/-- JS `a || b` for an optional number: `0`, `null` and `undefined` are falsy. -/
def jsOrNat (a : Option Nat) (b : Nat) : Nat :=
  match a with
  | some n => if n = 0 then b else n
  | none => b

/-- Hex value of a digit character, for `parseInt(·, 16)` (code points
48–57 = `0`–`9`, 97–102 = `a`–`f`, 65–70 = `A`–`F`). -/
def hexDigitVal (c : Char) : Option Nat :=
  let n := c.toNat
  if 48 ≤ n ∧ n ≤ 57 then some (n - 48)
  else if 97 ≤ n ∧ n ≤ 102 then some (n - 97 + 10)
  else if 65 ≤ n ∧ n ≤ 70 then some (n - 65 + 10)
  else none

/-- Accumulating core of `parseInt(s, 16)`: consume hex digits until the first
non-digit, as JS does. -/
def parseHexDigits : List Char → Nat → Nat
  | [], acc => acc
  | c :: cs, acc =>
    match hexDigitVal c with
    | some d => parseHexDigits cs (acc * 16 + d)
    | none => acc

/-- `parseInt(s, 16)` restricted to the strings this program feeds it
(substrings of a hex digest).  On a string with no leading hex digit JS
returns `NaN`; the embedding returns `0` there, and every theorem that could
be sensitive to the difference carries an all-hex-digits hypothesis. -/
def parseHex (s : String) : Nat := parseHexDigits s.toList 0

/-- A character the hash validation regex `[0-9a-fA-F]` accepts. -/
def isHexChar (c : Char) : Bool :=
  ('0' ≤ c && c ≤ '9') || ('a' ≤ c && c ≤ 'f') || ('A' ≤ c && c ≤ 'F')

/-- JS `s.substring(a, b)` (for `a ≤ b`): characters `[a, min b s.length)`. -/
def jsSubstring (s : String) (a b : Nat) : String :=
  ⟨(s.toList.drop a).take (b - a)⟩

/-! ## SHA-256

`deriveColors.js` obtains its digest from the platform primitive
`crypto.subtle.digest('SHA-256', utf8(input))` and hex-encodes the 32 result
bytes (`sha256`, cron_runner.js digest section).  The primitive itself is not
repository code, so it is modelled here by a full FIPS 180-4 SHA-256 over
`ℕ` with explicit `% 2^32` wrap-around. -/

/-- Truncation to a 32-bit word. -/
def m32 (n : Nat) : Nat := n % 4294967296

/-- 32-bit right rotation. -/
def rotr32 (n x : Nat) : Nat := m32 (x / 2 ^ n + x % 2 ^ n * 2 ^ (32 - n))

/-- Logical right shift. -/
def shr32 (n x : Nat) : Nat := x / 2 ^ n

/-- Bitwise complement within 32 bits. -/
def not32 (x : Nat) : Nat := Nat.xor x 4294967295

/-- SHA-256 `Ch e f g`. -/
def sha2Ch (e f g : Nat) : Nat := Nat.xor (Nat.land e f) (Nat.land (not32 e) g)

/-- SHA-256 `Maj a b c`. -/
def sha2Maj (a b c : Nat) : Nat :=
  Nat.xor (Nat.xor (Nat.land a b) (Nat.land a c)) (Nat.land b c)

/-- SHA-256 `Σ₀`. -/
def sha2S0 (x : Nat) : Nat := Nat.xor (Nat.xor (rotr32 2 x) (rotr32 13 x)) (rotr32 22 x)

/-- SHA-256 `Σ₁`. -/
def sha2S1 (x : Nat) : Nat := Nat.xor (Nat.xor (rotr32 6 x) (rotr32 11 x)) (rotr32 25 x)

/-- SHA-256 `σ₀`. -/
def sha2s0 (x : Nat) : Nat := Nat.xor (Nat.xor (rotr32 7 x) (rotr32 18 x)) (shr32 3 x)

/-- SHA-256 `σ₁`. -/
def sha2s1 (x : Nat) : Nat := Nat.xor (Nat.xor (rotr32 17 x) (rotr32 19 x)) (shr32 10 x)

/-- The 64 SHA-256 round constants (FIPS 180-4 §4.2.2). -/
def sha2K : List Nat :=
  [1116352408, 1899447441, 3049323471, 3921009573, 961987163,
   1508970993, 2453635748, 2870763221, 3624381080, 310598401,
   607225278, 1426881987, 1925078388, 2162078206, 2614888103,
   3248222580, 3835390401, 4022224774, 264347078, 604807628,
   770255983, 1249150122, 1555081692, 1996064986, 2554220882,
   2821834349, 2952996808, 3210313671, 3336571891, 3584528711,
   113926993, 338241895, 666307205, 773529912, 1294757372,
   1396182291, 1695183700, 1986661051, 2177026350, 2456956037,
   2730485921, 2820302411, 3259730800, 3345764771, 3516065817,
   3600352804, 4094571909, 275423344, 430227734, 506948616,
   659060556, 883997877, 958139571, 1322822218, 1537002063,
   1747873779, 1955562222, 2024104815, 2227730452, 2361852424,
   2428436474, 2756734187, 3204031479, 3329325298]

/-- Working state of a SHA-256 compression. -/
structure Sha2State where
  a : Nat
  b : Nat
  c : Nat
  d : Nat
  e : Nat
  f : Nat
  g : Nat
  h : Nat
deriving Repr, DecidableEq

/-- Initial SHA-256 hash value (FIPS 180-4 §5.3.3). -/
def sha2H0 : Sha2State :=
  ⟨1779033703, 3144134277, 1013904242, 2773480762,
   1359893119, 2600822924, 528734635, 1541459225⟩

/-- UTF-8 encoding of one character (what `TextEncoder` produces). -/
def utf8EncodeChar (c : Char) : List Nat :=
  let n := c.toNat
  if n < 0x80 then [n]
  else if n < 0x800 then [0xC0 + n / 64, 0x80 + n % 64]
  else if n < 0x10000 then [0xE0 + n / 4096, 0x80 + n / 64 % 64, 0x80 + n % 64]
  else [0xF0 + n / 262144, 0x80 + n / 4096 % 64, 0x80 + n / 64 % 64, 0x80 + n % 64]

/-- UTF-8 bytes of a string. -/
def utf8Bytes (s : String) : List Nat := (s.toList.map utf8EncodeChar).flatten

/-- SHA-256 padding: `0x80`, zeros to 56 mod 64, then the 64-bit big-endian
bit length. -/
def sha2Pad (msg : List Nat) : List Nat :=
  let bitLen := msg.length * 8
  let zeros := (119 - msg.length % 64) % 64
  msg ++ [0x80] ++ List.replicate zeros 0 ++
    [bitLen / 2 ^ 56 % 256, bitLen / 2 ^ 48 % 256, bitLen / 2 ^ 40 % 256,
     bitLen / 2 ^ 32 % 256, bitLen / 2 ^ 24 % 256, bitLen / 2 ^ 16 % 256,
     bitLen / 2 ^ 8 % 256, bitLen % 256]

/-- Split a byte list into 64-byte blocks (fuel-structured for computability). -/
def chunks64Go : Nat → List Nat → List (List Nat)
  | 0, _ => []
  | _, [] => []
  | fuel + 1, l => l.take 64 :: chunks64Go fuel (l.drop 64)

/-- 64-byte blocks of a padded message. -/
def chunks64 (l : List Nat) : List (List Nat) := chunks64Go l.length l

/-- The 16 initial big-endian message-schedule words of one block. -/
def blockWords (block : List Nat) : List Nat :=
  (List.range 16).map fun i =>
    block.getD (4 * i) 0 * 2 ^ 24 + block.getD (4 * i + 1) 0 * 2 ^ 16 +
      block.getD (4 * i + 2) 0 * 2 ^ 8 + block.getD (4 * i + 3) 0

/-- Extend 16 schedule words to 64 (FIPS 180-4 §6.2.2 step 1). -/
def sha2Schedule (w16 : List Nat) : List Nat :=
  (List.range 48).foldl
    (fun w _ =>
      w ++ [m32 (sha2s1 (w.getD (w.length - 2) 0) + w.getD (w.length - 7) 0 +
        sha2s0 (w.getD (w.length - 15) 0) + w.getD (w.length - 16) 0)])
    w16

/-- One SHA-256 round. -/
def sha2Round (st : Sha2State) (kw : Nat × Nat) : Sha2State :=
  let t1 := m32 (st.h + sha2S1 st.e + sha2Ch st.e st.f st.g + kw.1 + kw.2)
  let t2 := m32 (sha2S0 st.a + sha2Maj st.a st.b st.c)
  ⟨m32 (t1 + t2), st.a, st.b, st.c, m32 (st.d + t1), st.e, st.f, st.g⟩

/-- Compress one block into the running hash value. -/
def sha2Compress (h : Sha2State) (block : List Nat) : Sha2State :=
  let w := sha2Schedule (blockWords block)
  let st := (sha2K.zip w).foldl sha2Round h
  ⟨m32 (h.a + st.a), m32 (h.b + st.b), m32 (h.c + st.c), m32 (h.d + st.d),
   m32 (h.e + st.e), m32 (h.f + st.f), m32 (h.g + st.g), m32 (h.h + st.h)⟩

/-- SHA-256 of a byte sequence, as the final eight hash words. -/
def sha256Words (msg : List Nat) : Sha2State :=
  (chunks64 (sha2Pad msg)).foldl sha2Compress sha2H0

/-- Big-endian bytes of the eight hash words (the `Uint8Array` view the JS
code renders). -/
def sha2StateBytes (s : Sha2State) : List Nat :=
  [s.a / 2 ^ 24 % 256, s.a / 2 ^ 16 % 256, s.a / 2 ^ 8 % 256, s.a % 256,
   s.b / 2 ^ 24 % 256, s.b / 2 ^ 16 % 256, s.b / 2 ^ 8 % 256, s.b % 256,
   s.c / 2 ^ 24 % 256, s.c / 2 ^ 16 % 256, s.c / 2 ^ 8 % 256, s.c % 256,
   s.d / 2 ^ 24 % 256, s.d / 2 ^ 16 % 256, s.d / 2 ^ 8 % 256, s.d % 256,
   s.e / 2 ^ 24 % 256, s.e / 2 ^ 16 % 256, s.e / 2 ^ 8 % 256, s.e % 256,
   s.f / 2 ^ 24 % 256, s.f / 2 ^ 16 % 256, s.f / 2 ^ 8 % 256, s.f % 256,
   s.g / 2 ^ 24 % 256, s.g / 2 ^ 16 % 256, s.g / 2 ^ 8 % 256, s.g % 256,
   s.h / 2 ^ 24 % 256, s.h / 2 ^ 16 % 256, s.h / 2 ^ 8 % 256, s.h % 256]

/-- Lower-case hex digit character. -/
def hexChar (k : Nat) : Char := "0123456789abcdef".toList.getD k '0'

/-- `b.toString(16).padStart(2, '0')` for a byte `b < 256`: exactly the two
nibble characters. -/
def toHexByte (n : Nat) : List Char := [hexChar (n / 16), hexChar (n % 16)]

/-- Hex string of a byte list, as `map(b => b.toString(16).padStart(2,'0')).join('')`. -/
def bytesToHex (bs : List Nat) : String := ⟨(bs.map toHexByte).flatten⟩

/-- Modelled from the spec: `sha256` in `deriveColors.js` — "Compute a 256-bit
cryptographic digest of the normalized hash string (treated as UTF-8 bytes),
hex-encoded to 64 characters."  The repository's function delegates to the
platform primitive `crypto.subtle.digest('SHA-256', ·)`, which is not
repository code; it is modelled here by the FIPS 180-4 SHA-256 above. -/
def sha256 (input : String) : String := bytesToHex (sha2StateBytes (sha256Words (utf8Bytes input)))

/-! ## Configuration (`inputs/config.json` as consumed by the modules)

Optional fields model JSON keys that may be absent; the modules apply their
own `||` defaults. -/

/-- The `colorDerivation` section of the configuration. -/
structure ColorDerivationCfg where
  algorithm : Option String := none
  paletteSize : Option Nat := none
  saturationRange : Option (ℚ × ℚ) := none
  lightnessRange : Option (ℚ × ℚ) := none
deriving Repr, DecidableEq

/-- The `output` section of the configuration. -/
structure OutputCfg where
  publicDir : Option String := none
deriving Repr, DecidableEq

/-- The loaded configuration object. -/
structure Config where
  colorDerivation : Option ColorDerivationCfg := none
  output : Option OutputCfg := none
deriving Repr, DecidableEq

/-! ## Color derivation (`deriveColors.js`) -/

/-- An `{h, s, l}` object as stored on a swatch (all three are `Math.round`
results, hence integers). -/
structure HSL where
  h : ℤ
  s : ℤ
  l : ℤ
deriving Repr, DecidableEq

/-- `hslToCss`: the string `hsl(h, s%, l%)`. -/
def hslToCss (hsl : HSL) : String :=
  "hsl(" ++ toString hsl.h ++ ", " ++ toString hsl.s ++ "%, " ++ toString hsl.l ++ "%)"

/-- JS `q % 2` for the nonnegative operands occurring in `hslToHex`
(`hsl.h / 60` with `h ≥ 0`): `q - 2⌊q/2⌋`. -/
def jmod2 (q : ℚ) : ℚ := q - 2 * ⌊q / 2⌋

/-- `hslToHex`: HSL → `#rrggbb` by the chroma/sector formula of the source
(six 60°-wide sectors, each channel `Math.round((n + m) * 255)` rendered as
two hex digits).  The rounded channel is cast through `Int.toNat`; every
channel arising in the verified runs is shown to lie in `[0, 255]`. -/
def hslToHex (hsl : HSL) : String :=
  let s : ℚ := (hsl.s : ℚ) / 100
  let l : ℚ := (hsl.l : ℚ) / 100
  let c : ℚ := (1 - |2 * l - 1|) * s
  let x : ℚ := c * (1 - |jmod2 ((hsl.h : ℚ) / 60) - 1|)
  let m : ℚ := l - c / 2
  let rgb : ℚ × ℚ × ℚ :=
    if 0 ≤ hsl.h ∧ hsl.h < 60 then (c, x, 0)
    else if 60 ≤ hsl.h ∧ hsl.h < 120 then (x, c, 0)
    else if 120 ≤ hsl.h ∧ hsl.h < 180 then (0, c, x)
    else if 180 ≤ hsl.h ∧ hsl.h < 240 then (0, x, c)
    else if 240 ≤ hsl.h ∧ hsl.h < 300 then (x, 0, c)
    else (c, 0, x)
  let toHex : ℚ → List Char := fun n => toHexByte (jround ((n + m) * 255)).toNat
  ⟨'#' :: (toHex rgb.1 ++ toHex rgb.2.1 ++ toHex rgb.2.2)⟩

/-- A color as computed by `deriveSingleColor` (before the palette loop adds
`index` and `fromHash`). -/
structure DerivedColor where
  hsl : HSL
  css : String
  hex : String
deriving Repr, DecidableEq

/-- `deriveSingleColor(hashSegment, cfg)`: hue from the first 3 hex chars
(`/4095 * 360`), saturation from chars 3–4 (`/255` into the configured
range), lightness from char 5 (`/15` into the configured range); all three
`Math.round`ed (saturation/lightness after scaling by 100). -/
def deriveSingleColor (hashSegment : String) (cfg : Config) : DerivedColor :=
  let hue : ℚ := (parseHex (jsSubstring hashSegment 0 3) : ℚ) / 4095 * 360
  let satRange : ℚ × ℚ := (cfg.colorDerivation.bind (·.saturationRange)).getD (3/5, 9/10)
  let lightRange : ℚ × ℚ := (cfg.colorDerivation.bind (·.lightnessRange)).getD (2/5, 7/10)
  let satNorm : ℚ := (parseHex (jsSubstring hashSegment 3 5) : ℚ) / 255
  let saturation : ℚ := satRange.1 + satNorm * (satRange.2 - satRange.1)
  let lightNorm : ℚ := (parseHex (jsSubstring hashSegment 5 6) : ℚ) / 15
  let lightness : ℚ := lightRange.1 + lightNorm * (lightRange.2 - lightRange.1)
  let hsl : HSL := ⟨jround hue, jround (saturation * 100), jround (lightness * 100)⟩
  ⟨hsl, hslToCss hsl, hslToHex hsl⟩

/-- Block metadata as extracted by `parseLedger.js`; the all-`none` record
doubles as the JS empty object `{}`. -/
structure Metadata where
  height : Option ℤ := none
  timestamp : Option ℤ := none
  txCount : Option ℤ := none
  size : Option ℤ := none
deriving Repr, DecidableEq

/-- The record `parseLedger` returns and `deriveColors` consumes. -/
structure ParsedData where
  hash : Option String := none
  hashes : List String := []
  metadata : Option Metadata := none
  algorithm : Option String := none
deriving Repr, DecidableEq

/-- A palette entry pushed by the `deriveColors` loop. -/
structure Swatch where
  index : Nat
  hsl : HSL
  css : String
  hex : String
  fromHash : String
deriving Repr, DecidableEq

/-- The complementary accent object (it carries no `index`/`fromHash`). -/
structure AccentColor where
  hsl : HSL
  css : String
  hex : String
deriving Repr, DecidableEq

/-- The object `deriveColors` resolves with.  `none` in an optional field is
a field the corresponding JS object lacks (or holds `null`). -/
structure ColorData where
  palette : List Swatch
  primaryColor : Option Swatch
  accentColor : Option AccentColor := none
  hash : Option String
  algorithm : String
  metadata : Option Metadata := none
  derivedAt : Option String := none
deriving Repr, DecidableEq

/-- `deriveColors(parsedData)` with the loaded configuration and the ambient
clock (`new Date().toISOString()`) passed explicitly as `cfg` and `now`.
The guard `!parsedData || !parsedData.hash` (missing input, missing hash or
empty-string hash — all falsy) returns the sentinel object with an empty
palette; otherwise the palette loop takes, for `i < paletteSize`, the window
`fullHash.substring(i*6 % 64, i*6 % 64 + 6)` of the SHA-256 digest and pushes
a swatch only when that window has the full 6 characters.  JS `%` agrees with
`Int.emod` on the nonnegative dividends occurring here. -/
def deriveColors (cfg : Config) (now : String) (parsedData : Option ParsedData) : ColorData :=
  let paletteSize := jsOrNat (cfg.colorDerivation.bind (·.paletteSize)) 6
  match parsedData, parsedData.bind (·.hash) with
  | some pd, some hash =>
    if hash = "" then
      { palette := [], primaryColor := none, hash := none,
        algorithm := jsOrStr (cfg.colorDerivation.bind (·.algorithm)) "sha256" }
    else
      let algorithm := jsOrStr pd.algorithm
        (jsOrStr (cfg.colorDerivation.bind (·.algorithm)) "sha256")
      let fullHash := sha256 hash
      let palette := (List.range paletteSize).filterMap fun i =>
        let startIdx := i * 6
        let segment := jsSubstring fullHash (startIdx % 64) (startIdx % 64 + 6)
        if segment.length = 6 then
          let color := deriveSingleColor segment cfg
          some { index := i, hsl := color.hsl, css := color.css, hex := color.hex,
                 fromHash := jsSubstring hash 0 8 ++ "..." }
        else none
      let primaryColor := palette.head?
      let accentColor := primaryColor.map fun p =>
        let accentHue := (p.hsl.h + 180) % 360
        { hsl := ⟨accentHue, p.hsl.s, p.hsl.l⟩,
          css := "hsl(" ++ toString accentHue ++ ", " ++ toString p.hsl.s ++ "%, " ++
            toString p.hsl.l ++ "%)",
          hex := hslToHex ⟨accentHue, p.hsl.s, p.hsl.l⟩ : AccentColor }
      { palette := palette, primaryColor := primaryColor, accentColor := accentColor,
        hash := some hash, algorithm := algorithm,
        metadata := some (pd.metadata.getD {}), derivedAt := some now }
  | _, _ =>
    { palette := [], primaryColor := none, hash := none,
      algorithm := jsOrStr (cfg.colorDerivation.bind (·.algorithm)) "sha256" }

/-- Step 3 of `runPipeline` (cron_runner.js): the orchestrator rejects a
derivation result whose palette is empty. -/
def deriveStep (colorData : ColorData) : Except String ColorData :=
  if colorData.palette.isEmpty then Except.error "Could not derive colors"
  else Except.ok colorData

/-! ## Block hash acquisition (`fetchBlockchain.js`)

HTTP and the clock are effects; they are embedded as an oracle assigning an
outcome to each successive HTTP attempt (numbered from 0) and a trace
recording the attempts made and the backoff delays slept. -/

/-- `RETRY_CONFIG`. -/
structure RetryConfig where
  maxRetries : Nat
  initialDelayMs : Nat
  maxDelayMs : Nat
  backoffMultiplier : Nat
deriving Repr, DecidableEq

/-- The module-level constant of `fetchBlockchain.js`. -/
def RETRY_CONFIG : RetryConfig :=
  { maxRetries := 3, initialDelayMs := 1000, maxDelayMs := 10000, backoffMultiplier := 2 }

/-- `getBackoffDelay(attempt) = min(initialDelayMs * backoffMultiplier ^ attempt,
maxDelayMs)`. -/
def getBackoffDelay (attempt : Nat) : Nat :=
  min (RETRY_CONFIG.initialDelayMs * RETRY_CONFIG.backoffMultiplier ^ attempt)
    RETRY_CONFIG.maxDelayMs

/-- What one HTTP attempt observes: a response with its status, or a rejected
`fetch` (network error / timeout).  The JSON body of an ok response is
represented by the block hash the response-shape normalization (array /
`block.hash` / `hash`, possibly none of them) extracts from it, since no
claim in scope distinguishes the shapes further. -/
inductive FetchOutcome
  | resp (status : Nat) (hash : Option String)
  | netErr
deriving Repr, DecidableEq

/-- A source: the outcome of the n-th HTTP attempt made against it. -/
abbrev Oracle := Nat → FetchOutcome

/-- Observable trace of a run: HTTP attempts made and backoff delays slept. -/
structure HttpTrace where
  requests : Nat
  delays : List Nat
deriving Repr, DecidableEq

/-- `fetchWithRetry(url, options, attempt)`.  The JS recursion is bounded by
`attempt < RETRY_CONFIG.maxRetries`; the complementary budget
`retriesLeft = maxRetries - attempt` is carried structurally so the
definition computes in the kernel, and the guard `attempt < maxRetries`
appears as `retriesLeft ≠ 0`.  Returns the response `(status, body)` — any
status, once 5xx retries are exhausted — or rethrows the network error. -/
def fetchWithRetry (o : Oracle) : Nat → Nat → HttpTrace →
    Except Unit (Nat × Option String) × HttpTrace
  | attempt, retriesLeft, t =>
    let outcome := o t.requests
    let t1 : HttpTrace := { t with requests := t.requests + 1 }
    match outcome, retriesLeft with
    | .resp s h, r + 1 =>
      if 500 ≤ s then
        fetchWithRetry o (attempt + 1) r
          { t1 with delays := t1.delays ++ [getBackoffDelay attempt] }
      else (.ok (s, h), t1)
    | .resp s h, 0 => (.ok (s, h), t1)
    | .netErr, r + 1 =>
      fetchWithRetry o (attempt + 1) r
        { t1 with delays := t1.delays ++ [getBackoffDelay attempt] }
    | .netErr, 0 => (.error (), t1)

/-- A standalone `fetchWithRetry(url)` call as the callers make it
(`attempt = 0`, fresh trace). -/
def fetchWithRetryRun (o : Oracle) : Except Unit (Nat × Option String) × HttpTrace :=
  fetchWithRetry o 0 RETRY_CONFIG.maxRetries ⟨0, []⟩

/-- An error caught by the `fetchLatestBlockHash` loop and remembered in
`lastError`. -/
inductive FetchErr
  | httpErr (status : Nat)
  | netErr
deriving Repr, DecidableEq

/-- The error `fetchLatestBlockHash` finally throws: `Failed to fetch latest
block hash after (maxRetries+1) attempts: <lastError>`. -/
structure SourceUnavailable where
  lastError : Option FetchErr
deriving Repr, DecidableEq

/-- The `for attempt in 0..maxRetries` loop of `fetchLatestBlockHash`, with
`attemptsLeft = maxRetries + 1 - attempt` carried structurally; the guard
`attempt < maxRetries` appears as `attemptsLeft ≠ 1`.  Each iteration calls
`fetchWithRetry` afresh (`attempt = 0`, full inner budget).  A non-ok
response that is not a retried 5xx is thrown and caught by the iteration's
own `catch`, which records it in `lastError` and — like a network rethrow
from `fetchWithRetry` — sleeps and continues when budget remains.  The 5xx
`continue` path does not touch `lastError`.  When the loop ends the final
error is thrown. -/
def fetchLatestBlockHashGo (o : Oracle) : Nat → Nat → Option FetchErr → HttpTrace →
    Except SourceUnavailable (Option String) × HttpTrace
  | _, 0, lastError, t => (.error ⟨lastError⟩, t)
  | attempt, left + 1, lastError, t =>
    match fetchWithRetry o 0 RETRY_CONFIG.maxRetries t with
    | (.ok (s, h), t1) =>
      if 200 ≤ s ∧ s ≤ 299 then (.ok h, t1)
      else if 500 ≤ s ∧ left ≠ 0 then
        fetchLatestBlockHashGo o (attempt + 1) left lastError
          { t1 with delays := t1.delays ++ [getBackoffDelay attempt] }
      else if left ≠ 0 then
        fetchLatestBlockHashGo o (attempt + 1) left (some (.httpErr s))
          { t1 with delays := t1.delays ++ [getBackoffDelay attempt] }
      else fetchLatestBlockHashGo o (attempt + 1) left (some (.httpErr s)) t1
    | (.error (), t1) =>
      if left ≠ 0 then
        fetchLatestBlockHashGo o (attempt + 1) left (some .netErr)
          { t1 with delays := t1.delays ++ [getBackoffDelay attempt] }
      else fetchLatestBlockHashGo o (attempt + 1) left (some .netErr) t1

/-- Result of a full `fetchLatestBlockHash()` run against a source. -/
structure FetchRun where
  result : Except SourceUnavailable (Option String)
  requests : Nat
  delays : List Nat
deriving Repr, DecidableEq

/-- `fetchLatestBlockHash()` against the source `o`. -/
def fetchLatestBlockHash (o : Oracle) : FetchRun :=
  let r := fetchLatestBlockHashGo o 0 (RETRY_CONFIG.maxRetries + 1) none ⟨0, []⟩
  ⟨r.1, r.2.requests, r.2.delays⟩

/-! ## Ledger parsing (`parseLedger.js`) -/

/-- A block object in an API payload; only the fields the module reads.
`tx` is kept as a list because only `tx?.length` is consumed. -/
structure BlockObj where
  hash : Option String := none
  id : Option String := none
  height : Option ℤ := none
  block_height : Option ℤ := none
  timestamp : Option ℤ := none
  time : Option ℤ := none
  tx : Option (List Unit) := none
  n_tx : Option ℤ := none
  size : Option ℤ := none
deriving Repr, DecidableEq

/-- One element of a payload: a bare hash string or a block object. -/
inductive BlockData
  | strB (s : String)
  | objB (o : BlockObj)
deriving Repr, DecidableEq

/-- JS truthiness of a block value: objects are truthy, `''` is not. -/
def jsTruthyBlock (b : BlockData) : Bool :=
  match b with
  | .strB s => s ≠ ""
  | .objB _ => true

/-- First truthy of two optional strings (`a.hash || a.id` pattern);
`none` when both are falsy. -/
def jsFirstTruthy (a b : Option String) : Option String :=
  match a with
  | some s => if s = "" then (match b with | some t => if t = "" then none else some t | none => none) else some s
  | none => match b with | some t => if t = "" then none else some t | none => none

/-- The regex test `^[a-fA-F0-9]+$`. -/
def hexTest (s : String) : Bool := !s.isEmpty && s.toList.all isHexChar

/-- `parseBlockHash(blockData)`: extract `hash`/`id` (or the string itself),
return it only when it passes hex validation, else `null`.  A falsy input
(`null`, `''`) returns `null` via the leading guard. -/
def parseBlockHash (blockData : Option BlockData) : Option String :=
  match blockData with
  | none => none
  | some (.strB "") => none
  | some (.strB s) => if hexTest s then some s else none
  | some (.objB o) =>
    match jsFirstTruthy o.hash o.id with
    | some s => if hexTest s then some s else none
    | none => none

/-- `parseBlockArray(blocks)`: every valid hash, in order. -/
def parseBlockArray (blocks : List BlockData) : List String :=
  blocks.filterMap fun b => parseBlockHash (some b)

/-- `normalizeHash(hash)`: `''` when falsy, else lower-cased with every
character outside `[a-f0-9]` stripped. -/
def normalizeHash (hash : Option String) : String :=
  match hash with
  | none => ""
  | some s =>
    ⟨(s.toList.map Char.toLower).filter fun c =>
      ('a' ≤ c && c ≤ 'f') || ('0' ≤ c && c ≤ '9')⟩

/-- JS `a || b` on optional numbers where `0` is falsy, chained for the
metadata defaults. -/
def jsOrInt (a b : Option ℤ) : Option ℤ :=
  match a with
  | some n => if n = 0 then b else some n
  | none => b

/-- `extractBlockMetadata(blockData)`: best-effort field extraction; a
non-object input yields the empty record `{}` (all fields absent). -/
def extractBlockMetadata (blockData : Option BlockData) : Metadata :=
  match blockData with
  | some (.objB o) =>
    { height := jsOrInt o.height (jsOrInt o.block_height none),
      timestamp := jsOrInt o.timestamp (jsOrInt o.time none),
      txCount := some ((jsOrInt (o.tx.map fun l => (l.length : ℤ)) (jsOrInt o.n_tx none)).getD 0),
      size := jsOrInt o.size none }
  | _ => {}

/-- A raw payload handed to `parseLedger`: an array of blocks or a single
block value. -/
inductive RawData
  | arr (blocks : List BlockData)
  | single (b : BlockData)
deriving Repr, DecidableEq

/-- `parseLedger(rawData)` with the loaded configuration passed explicitly.
For an array, `hashes` keeps every valid hash, the primary `hash` is
`hashes[0] || null` and the metadata comes from `rawData[0]` (when truthy);
for a single block both come from that block.  The primary hash is
normalized (`''` when absent). -/
def parseLedger (cfg : Config) (rawData : Option RawData) : ParsedData :=
  match rawData with
  | none => { hash := none, metadata := some {}, hashes := [] }
  | some (.arr blocks) =>
    let hashes := parseBlockArray blocks
    let metadata : Metadata :=
      match blocks.head? with
      | some b0 => if jsTruthyBlock b0 then extractBlockMetadata (some b0) else {}
      | none => {}
    { hash := some (normalizeHash hashes.head?),
      hashes := hashes.map fun h => normalizeHash (some h),
      metadata := some metadata,
      algorithm := some (jsOrStr (cfg.colorDerivation.bind (·.algorithm)) "sha256") }
  | some (.single b) =>
    let hash := parseBlockHash (some b)
    let hashes := match hash with | some h => [h] | none => []
    { hash := some (normalizeHash hash),
      hashes := hashes.map fun h => normalizeHash (some h),
      metadata := some (extractBlockMetadata (some b)),
      algorithm := some (jsOrStr (cfg.colorDerivation.bind (·.algorithm)) "sha256") }

/-! ## Publication (`publish.js`, the Node branch `publish` dispatches to)

The filesystem is an oracle: what `mkdir` does, and whether a `writeFile`
of a given path and content fails (with what message). -/

/-- Filesystem behaviour for one `publishToFile` run. -/
structure FsModel where
  mkdirErr : Option String := none
  writeErr : String → String → Option String := fun _ _ => none

/-- `options` as consumed by `publishToFile`: a format is attempted unless
its flag is the literal `false` (`options.css !== false`). -/
structure PublishOptions where
  outputDir : Option String := none
  css : Bool := true
  json : Bool := true
  html : Bool := true
deriving Repr, DecidableEq

/-- One `{type, path}` entry of `PublishResult.outputs`. -/
structure PubOutput where
  type : String
  path : String
deriving Repr, DecidableEq

/-- The result object `publishToFile` builds. -/
structure PublishResult where
  success : Bool
  outputs : List PubOutput
  errors : List String
deriving Repr, DecidableEq

/-- `path.join` as used here (plain separator insertion). -/
def pathJoin (a b : String) : String := a ++ "/" ++ b

/-- `generateCssVariables(colorData)` (the `publish.js` copy, with the
ambient clock passed as `now`). -/
def generateCssVariables (now : String) (colorData : ColorData) : String :=
  let headerVars : List String :=
    ["/* BlockHash Accent Colors - Generated " ++ now ++ " */",
     "/* Source Hash: " ++ jsOrStr colorData.hash "N/A" ++ " */",
     ":root \x7b"]
  let primaryVars : List String :=
    match colorData.primaryColor with
    | some p =>
      ["  --primary-color: " ++ p.css ++ ";",
       "  --primary-hex: " ++ p.hex ++ ";",
       "  --primary-hsl: " ++ toString p.hsl.h ++ ", " ++ toString p.hsl.s ++ "%, " ++
         toString p.hsl.l ++ "%;"]
    | none => []
  let accentVars : List String :=
    match colorData.accentColor with
    | some a =>
      ["  --accent-color: " ++ a.css ++ ";",
       "  --accent-hex: " ++ a.hex ++ ";",
       "  --accent-hsl: " ++ toString a.hsl.h ++ ", " ++ toString a.hsl.s ++ "%, " ++
         toString a.hsl.l ++ "%;"]
    | none => []
  let paletteVars : List String :=
    (colorData.palette.enum.map fun ic =>
      ["  --color-" ++ toString (ic.1 + 1) ++ ": " ++ ic.2.css ++ ";",
       "  --color-" ++ toString (ic.1 + 1) ++ "-hex: " ++ ic.2.hex ++ ";",
       "  --color-" ++ toString (ic.1 + 1) ++ "-hsl: " ++ toString ic.2.hsl.h ++ ", " ++
         toString ic.2.hsl.s ++ "%, " ++ toString ic.2.hsl.l ++ "%;"]).flatten
  String.intercalate "\n" (headerVars ++ primaryVars ++ accentVars ++ paletteVars ++ ["\x7d"])

/-- JSON rendering of an `{h, s, l}` object. -/
def jsonHsl (hsl : HSL) : String :=
  "\x7b \"h\": " ++ toString hsl.h ++ ", \"s\": " ++ toString hsl.s ++
    ", \"l\": " ++ toString hsl.l ++ " \x7d"

/-- JSON rendering of a `{hex, css, hsl}` color. -/
def jsonColor (hex css : String) (hsl : HSL) : String :=
  "\x7b \"hex\": \"" ++ hex ++ "\", \"css\": \"" ++ css ++ "\", \"hsl\": " ++
    jsonHsl hsl ++ " \x7d"

/-- `generateJsonOutput(colorData)`: the `JSON.stringify(output, null, 2)`
document — same fields in the same order; the pretty-printer's line breaks
are collapsed (no claim in scope reads the whitespace). -/
def generateJsonOutput (now : String) (colorData : ColorData) : String :=
  let primary :=
    match colorData.primaryColor with
    | some p => jsonColor p.hex p.css p.hsl
    | none => "null"
  let accent :=
    match colorData.accentColor with
    | some a => jsonColor a.hex a.css a.hsl
    | none => "null"
  let paletteEntries := colorData.palette.map fun c =>
    "\x7b \"index\": " ++ toString c.index ++ ", \"hex\": \"" ++ c.hex ++
      "\", \"css\": \"" ++ c.css ++ "\", \"hsl\": " ++ jsonHsl c.hsl ++ " \x7d"
  "\x7b \"generatedAt\": \"" ++ now ++ "\", \"sourceHash\": " ++
    (match colorData.hash with | some h => "\"" ++ h ++ "\"" | none => "null") ++
    ", \"algorithm\": \"" ++ colorData.algorithm ++ "\", \"primary\": " ++ primary ++
    ", \"accent\": " ++ accent ++ ", \"palette\": [" ++
    String.intercalate ", " paletteEntries ++ "] \x7d"

/-- `generateHtmlPreview(colorData)` (interpolation of `null` prints the
string `null`, as JS template literals do). -/
def generateHtmlPreview (colorData : ColorData) : String :=
  let colors := colorData.palette.map (·.hex)
  let primary := jsOrStr (colorData.primaryColor.map (·.hex)) "#000000"
  let accent := jsOrStr (colorData.accentColor.map (·.hex)) "#ffffff"
  let hashStr := match colorData.hash with | some h => h | none => "null"
  let swatchDivs := String.join (colors.map fun c =>
    "<div style=\"width: 32px; height: 32px; background: " ++ c ++
      "; border-radius: 4px;\" title=\"" ++ c ++ "\"></div>")
  String.intercalate "\n"
    ["<!-- BlockHash Accent Colors Preview -->",
     "<div class=\"blockhash-colors\" data-hash=\"" ++ hashStr ++ "\">",
     "  <div class=\"palette\" style=\"display: flex; gap: 4px;\">",
     "    " ++ swatchDivs,
     "  </div>",
     "  <div class=\"primary\" style=\"color: " ++ primary ++ ";\">Primary: " ++ primary ++ "</div>",
     "  <div class=\"accent\" style=\"color: " ++ accent ++ ";\">Accent: " ++ accent ++ "</div>",
     "</div>"]

/-- `publishToFile(colorData, options)` with the filesystem, the resolved
module base directory (`join(__dirname, '..')`), the configuration and the
clock passed explicitly.  The `mkdir` guard rethrows any error whose code is
not `EEXIST` (`Except.error`); each requested format is then attempted
independently, a failure appending to `errors` and clearing `success`, a
success appending the `{type, path}` entry. -/
def publishToFile (fs : FsModel) (baseDir : String) (cfg : Config) (now : String)
    (colorData : ColorData) (options : PublishOptions) : Except String PublishResult :=
  let outputDir := jsOrStr options.outputDir (jsOrStr (cfg.output.bind (·.publicDir)) "public")
  match fs.mkdirErr with
  | some code =>
    if code ≠ "EEXIST" then Except.error code
    else Except.ok (publishWrites fs baseDir outputDir now colorData options)
  | none => Except.ok (publishWrites fs baseDir outputDir now colorData options)
where
  /-- The three independent format writes. -/
  publishWrites (fs : FsModel) (baseDir outputDir now : String) (colorData : ColorData)
      (options : PublishOptions) : PublishResult :=
    let r0 : PublishResult := ⟨true, [], []⟩
    let r1 :=
      if options.css then
        let cssPath := pathJoin (pathJoin baseDir outputDir) "colors.css"
        match fs.writeErr cssPath (generateCssVariables now colorData) with
        | none => { r0 with outputs := r0.outputs ++ [⟨"css", cssPath⟩] }
        | some m =>
          { r0 with success := false, errors := r0.errors ++ ["Failed to write CSS: " ++ m] }
      else r0
    let r2 :=
      if options.json then
        let jsonPath := pathJoin (pathJoin baseDir outputDir) "colors.json"
        match fs.writeErr jsonPath (generateJsonOutput now colorData) with
        | none => { r1 with outputs := r1.outputs ++ [⟨"json", jsonPath⟩] }
        | some m =>
          { r1 with success := false, errors := r1.errors ++ ["Failed to write JSON: " ++ m] }
      else r1
    if options.html then
      let htmlPath := pathJoin (pathJoin baseDir outputDir) "colors-preview.html"
      match fs.writeErr htmlPath (generateHtmlPreview colorData) with
      | none => { r2 with outputs := r2.outputs ++ [⟨"html", htmlPath⟩] }
      | some m =>
        { r2 with success := false, errors := r2.errors ++ ["Failed to write HTML: " ++ m] }
    else r2

/-- `publish(colorData, options)` in the Node.js environment (the branch the
pipeline takes; the browser branch returns a formatted string instead and is
outside every claim's scope). -/
def publish (fs : FsModel) (baseDir : String) (cfg : Config) (now : String)
    (colorData : ColorData) (options : PublishOptions) : Except String PublishResult :=
  publishToFile fs baseDir cfg now colorData options

/-! ## Spec-side definitions used to state the round-trip claim (C9) -/

/-- Channel clamp to `[0, 255]`. -/
def clamp255 (z : ℤ) : ℤ := max 0 (min 255 z)

/-- Modelled from the spec: §4.3 step 4 — convert HSL → RGB "using the
standard piecewise chroma/hue-sector formula (six 60°-wide sectors)", each
channel "rounded to nearest integer and clamped to [0,255]". -/
def specHslToRgb (hsl : HSL) : ℤ × ℤ × ℤ :=
  let s : ℚ := (hsl.s : ℚ) / 100
  let l : ℚ := (hsl.l : ℚ) / 100
  let c : ℚ := (1 - |2 * l - 1|) * s
  let x : ℚ := c * (1 - |jmod2 ((hsl.h : ℚ) / 60) - 1|)
  let m : ℚ := l - c / 2
  let rgb : ℚ × ℚ × ℚ :=
    if 0 ≤ hsl.h ∧ hsl.h < 60 then (c, x, 0)
    else if 60 ≤ hsl.h ∧ hsl.h < 120 then (x, c, 0)
    else if 120 ≤ hsl.h ∧ hsl.h < 180 then (0, c, x)
    else if 180 ≤ hsl.h ∧ hsl.h < 240 then (0, x, c)
    else if 240 ≤ hsl.h ∧ hsl.h < 300 then (x, 0, c)
    else (c, 0, x)
  (clamp255 (jround ((rgb.1 + m) * 255)), clamp255 (jround ((rgb.2.1 + m) * 255)),
   clamp255 (jround ((rgb.2.2 + m) * 255)))

/-- A configuration range whose endpoints are fractions of 100% (the data
model of §3/§6: `saturationRange`/`lightnessRange` hold values in [0,1]). -/
def RangeWithin01 (p : ℚ × ℚ) : Prop := 0 ≤ p.1 ∧ p.1 ≤ 1 ∧ 0 ≤ p.2 ∧ p.2 ≤ 1

/-- Parser for a `#rrggbb` string, recovering the three channels. -/
def parseHexColor (str : String) : Option (ℤ × ℤ × ℤ) :=
  match str.toList with
  | ['#', r1, r2, g1, g2, b1, b2] =>
    match hexDigitVal r1, hexDigitVal r2, hexDigitVal g1, hexDigitVal g2,
        hexDigitVal b1, hexDigitVal b2 with
    | some a1, some a2, some a3, some a4, some a5, some a6 =>
      some (((16 * a1 + a2 : ℕ) : ℤ), ((16 * a3 + a4 : ℕ) : ℤ), ((16 * a5 + a6 : ℕ) : ℤ))
    | _, _, _, _, _, _ => none
  | _ => none

/-- A filesystem in which exactly the write of `base/public/colors.json`
fails (used to exercise partial publication). -/
def fsJsonFail : FsModel :=
  { writeErr := fun p _ => if p = "base/public/colors.json" then some "disk full" else none }

/-- The round-trip property of C9: the stored `#rrggbb` string parses to
channels within ±1 of the spec-side HSL→RGB conversion of the stored HSL. -/
def roundTripOK (hex : String) (hsl : HSL) : Prop :=
  ∃ r g b : ℤ, parseHexColor hex = some (r, g, b) ∧
    |r - (specHslToRgb hsl).1| ≤ 1 ∧ |g - (specHslToRgb hsl).2.1| ≤ 1 ∧
    |b - (specHslToRgb hsl).2.2| ≤ 1

/-! ## Theorems -/

/-- C1: determinism of derivation — the derived palette, primary and accent
(and the echoed hash) do not depend on the ambient clock, so two calls with
the same normalized hash and configuration agree on all of them. -/
theorem c1_derive_deterministic (cfg : Config) (t1 t2 : String) (pd : Option ParsedData) :
    (deriveColors cfg t1 pd).palette = (deriveColors cfg t2 pd).palette ∧
    (deriveColors cfg t1 pd).primaryColor = (deriveColors cfg t2 pd).primaryColor ∧
    (deriveColors cfg t1 pd).accentColor = (deriveColors cfg t2 pd).accentColor ∧
    (deriveColors cfg t1 pd).hash = (deriveColors cfg t2 pd).hash := by
  rcases pd with _ | p
  · exact ⟨rfl, rfl, rfl, rfl⟩
  · rcases hp : p.hash with _ | h
    · simp [deriveColors, hp]
    · by_cases hh : h = "" <;> simp [deriveColors, hp, hh]

/-- C6: the HSL mapping of a digest window — the stored `h`, `s`, `l` are the
(rounded) spec formulas: hue from the first 3 hex chars over 4095 scaled to
360, saturation and lightness interpolated into the configured ranges from
chars 3–4 (over 255) and char 5 (over 15), scaled to percent. -/
theorem c6_hsl_mapping (seg : String) (cfg : Config)
    (_hlen : seg.length = 6) (_hhex : ∀ c ∈ seg.toList, isHexChar c = true) :
    (deriveSingleColor seg cfg).hsl.h =
      jround ((parseHex (jsSubstring seg 0 3) : ℚ) / 4095 * 360) ∧
    (deriveSingleColor seg cfg).hsl.s =
      jround ((((cfg.colorDerivation.bind (·.saturationRange)).getD (3/5, 9/10)).1 +
        (parseHex (jsSubstring seg 3 5) : ℚ) / 255 *
          (((cfg.colorDerivation.bind (·.saturationRange)).getD (3/5, 9/10)).2 -
            ((cfg.colorDerivation.bind (·.saturationRange)).getD (3/5, 9/10)).1)) * 100) ∧
    (deriveSingleColor seg cfg).hsl.l =
      jround ((((cfg.colorDerivation.bind (·.lightnessRange)).getD (2/5, 7/10)).1 +
        (parseHex (jsSubstring seg 5 6) : ℚ) / 15 *
          (((cfg.colorDerivation.bind (·.lightnessRange)).getD (2/5, 7/10)).2 -
            ((cfg.colorDerivation.bind (·.lightnessRange)).getD (2/5, 7/10)).1)) * 100) :=
  ⟨rfl, rfl, rfl⟩

/-- Witness for C6 at the first window of the digest of `"abc"`. -/
theorem c6_hsl_mapping_witness :
    ("ba7816".length = 6 ∧ ∀ c ∈ "ba7816".toList, isHexChar c = true) ∧
    (deriveSingleColor "ba7816" {}).hsl.h =
      jround ((parseHex (jsSubstring "ba7816" 0 3) : ℚ) / 4095 * 360) := by
  refine ⟨⟨by decide, by decide⟩, ?_⟩
  exact (c6_hsl_mapping "ba7816" {} (by decide) (by decide)).1

/-- C7 (amended): derivation invoked with an absent or empty hash does not
throw — it resolves with the sentinel object (empty palette, `null` primary,
no accent) — and it is the orchestrator's step-3 check that turns the empty
palette into the pipeline failure the caller observes. -/
theorem c7_empty_input (cfg : Config) (now : String) (pd : Option ParsedData)
    (h : pd.bind (·.hash) = none ∨ pd.bind (·.hash) = some "") :
    deriveColors cfg now pd =
      { palette := [], primaryColor := none, hash := none,
        algorithm := jsOrStr (cfg.colorDerivation.bind (·.algorithm)) "sha256" } ∧
    deriveStep (deriveColors cfg now pd) = Except.error "Could not derive colors" := by
  rcases pd with _ | p
  · exact ⟨rfl, rfl⟩
  · simp only [Option.bind, Option.some.injEq] at h
    rcases hp : p.hash with _ | s
    · constructor <;> simp [deriveColors, deriveStep, hp]
    · rcases h with h | h
      · rw [hp] at h; cases h
      · rw [hp] at h
        rcases h with ⟨⟩
        constructor <;> simp [deriveColors, deriveStep, hp]

/-- Witness for C7 at a record carrying an empty hash. -/
theorem c7_empty_input_witness :
    ((some { hash := some "" } : Option ParsedData).bind (·.hash) = none ∨
      (some { hash := some "" } : Option ParsedData).bind (·.hash) = some "") ∧
    deriveStep (deriveColors {} "2024-01-01T00:00:00Z" (some { hash := some "" })) =
      Except.error "Could not derive colors" := by
  refine ⟨Or.inr rfl, ?_⟩
  exact (c7_empty_input {} "2024-01-01T00:00:00Z" (some { hash := some "" }) (Or.inr rfl)).2

/-- C7 counterexample: the claim says derivation "fails fast with an
EmptyInput error"; on an empty hash the code instead returns (resolves with)
an ordinary sentinel value — an empty palette, `null` primary and the
configured algorithm name — not an error. -/
theorem c7_counterexample :
    deriveColors {} "2024-01-01T00:00:00Z" (some { hash := some "" }) =
      { palette := [], primaryColor := none, hash := none, algorithm := "sha256" } := by
  decide

/-! Evaluation lemmas for the retry machinery (shared by C2, C3 and C4). -/

/-- Shifting a delay schedule by one attempt: the head delay followed by the
schedule started one attempt later is the schedule of the next budget. -/
theorem gbdShift (f : Nat → Nat) (a r : Nat) :
    f a :: ((List.range r).map fun j => f (a + 1 + j)) =
      (List.range (r + 1)).map fun j => f (a + j) := by
  rw [List.range_succ_eq_map, List.map_cons, List.map_map]
  refine congrArg₂ List.cons (by rw [Nat.add_zero]) ?_
  apply List.map_congr_left
  intro j hj
  simp only [Function.comp_apply]
  congr 1
  omega

/-- `fetchWithRetry` against a constant-503 source: every level retries until
the budget is exhausted, sleeping `getBackoffDelay attempt` before each
retry, and the final 503 response is returned (not thrown). -/
theorem fetchWithRetry_const503 (r : Nat) : ∀ (attempt : Nat) (t : HttpTrace),
    fetchWithRetry (fun _ => .resp 503 none) attempt r t =
      (.ok (503, none),
        ⟨t.requests + r + 1,
         t.delays ++ ((List.range r).map fun j => getBackoffDelay (attempt + j))⟩) := by
  induction r with
  | zero =>
    intro attempt t
    simp [fetchWithRetry]
  | succ r ih =>
    intro attempt t
    have step : fetchWithRetry (fun _ => .resp 503 none) attempt (r + 1) t =
        fetchWithRetry (fun _ => .resp 503 none) (attempt + 1) r
          ⟨t.requests + 1, t.delays ++ [getBackoffDelay attempt]⟩ := rfl
    rw [step, ih]
    dsimp only
    refine congrArg₂ Prod.mk rfl ?_
    refine congrArg₂ HttpTrace.mk (by omega) ?_
    rw [List.append_assoc]
    exact congrArg₂ HAppend.hAppend rfl (gbdShift getBackoffDelay attempt r)

/-- `fetchWithRetry` against a source whose responses are never 5xx: exactly
one HTTP attempt is made and the response is returned as-is. -/
theorem fetchWithRetry_nonRetried (o : Oracle) (s : Nat) (h : Option String)
    (ho : ∀ n, o n = .resp s h) (hs : ¬ 500 ≤ s) (attempt r : Nat) (t : HttpTrace) :
    fetchWithRetry o attempt r t = (.ok (s, h), ⟨t.requests + 1, t.delays⟩) := by
  have he : o = fun _ => .resp s h := funext ho
  subst he
  cases r with
  | zero => simp [fetchWithRetry]
  | succ r => simp [fetchWithRetry, hs]

/-- The `fetchLatestBlockHash` loop against a constant-503 source: each of
its `left + 1` iterations spends a full inner `fetchWithRetry` budget of 4
HTTP attempts, and the loop ends in the final source-unavailable error. -/
theorem fetchLatestBlockHashGo_const503 (left : Nat) :
    ∀ (attempt : Nat) (le : Option FetchErr) (t : HttpTrace),
    (fetchLatestBlockHashGo (fun _ => .resp 503 none) attempt (left + 1) le t).1 =
      .error ⟨some (.httpErr 503)⟩ ∧
    (fetchLatestBlockHashGo (fun _ => .resp 503 none) attempt (left + 1) le t).2.requests =
      t.requests + 4 * (left + 1) := by
  induction left with
  | zero =>
    intro attempt le t
    rw [fetchLatestBlockHashGo, fetchWithRetry_const503]
    norm_num [RETRY_CONFIG, fetchLatestBlockHashGo]
  | succ left ih =>
    intro attempt le t
    rw [fetchLatestBlockHashGo, fetchWithRetry_const503]
    norm_num [RETRY_CONFIG]
    refine ⟨(ih (attempt + 1) le _).1, ?_⟩
    rw [(ih (attempt + 1) le _).2]
    dsimp only
    omega

/-- The `fetchLatestBlockHash` loop against a source whose responses have a
fixed non-ok, non-5xx status: every iteration makes one HTTP attempt, the
thrown HTTP error is caught and remembered, a backoff delay is slept before
each further iteration, and the loop ends in the final source-unavailable
error carrying that status. -/
theorem fetchLatestBlockHashGo_4xx (s : Nat) (hs : ¬ 500 ≤ s)
    (hnok : ¬ (200 ≤ s ∧ s ≤ 299)) (left : Nat) :
    ∀ (attempt : Nat) (le : Option FetchErr) (t : HttpTrace),
    fetchLatestBlockHashGo (fun _ => .resp s none) attempt (left + 1) le t =
      (.error ⟨some (.httpErr s)⟩,
       ⟨t.requests + (left + 1),
        t.delays ++ ((List.range left).map fun j => getBackoffDelay (attempt + j))⟩) := by
  induction left with
  | zero =>
    intro attempt le t
    rw [fetchLatestBlockHashGo, fetchWithRetry_nonRetried _ s none (fun _ => rfl) hs]
    dsimp only
    rw [if_neg hnok, if_neg (fun hc => hs hc.1), if_neg (fun hc => hc rfl)]
    rw [fetchLatestBlockHashGo]
    simp
  | succ left ih =>
    intro attempt le t
    rw [fetchLatestBlockHashGo, fetchWithRetry_nonRetried _ s none (fun _ => rfl) hs]
    dsimp only
    rw [if_neg hnok, if_neg (fun hc => hs hc.1), if_pos (Nat.succ_ne_zero left), ih]
    dsimp only
    refine congrArg₂ Prod.mk rfl ?_
    refine congrArg₂ HttpTrace.mk (by omega) ?_
    rw [List.append_assoc]
    exact congrArg₂ HAppend.hAppend rfl (gbdShift getBackoffDelay attempt left)

/-- C2 counterexample: against a source answering every request with HTTP
503, `fetchLatestBlockHash` makes 16 HTTP attempts — its outer loop runs
`maxRetries + 1` times and each iteration's `fetchWithRetry` call retries the
5xx up to `maxRetries` more times internally — not the claimed
`maxRetries + 1 = 4`. -/
theorem c2_counterexample :
    (fetchLatestBlockHash fun _ => .resp 503 none).requests = 16 ∧
    (fetchLatestBlockHash fun _ => .resp 503 none).requests ≠ RETRY_CONFIG.maxRetries + 1 := by
  have h := fetchLatestBlockHashGo_const503 RETRY_CONFIG.maxRetries 0 none ⟨0, []⟩
  constructor
  · simp only [fetchLatestBlockHash]
    rw [h.2]
    simp [RETRY_CONFIG]
  · simp only [fetchLatestBlockHash]
    rw [h.2]
    simp [RETRY_CONFIG]

/-- C2 (amended): an always-503 source triggers exactly
`(maxRetries + 1)² = 16` HTTP attempts — the outer loop of
`fetchLatestBlockHash` times the inner budget of `fetchWithRetry` — after
which the final source-unavailable error recording the HTTP 503 is thrown. -/
theorem c2_retry_ceiling (o : Oracle) (ho : ∀ n, o n = .resp 503 none) :
    (fetchLatestBlockHash o).requests =
      (RETRY_CONFIG.maxRetries + 1) * (RETRY_CONFIG.maxRetries + 1) ∧
    (fetchLatestBlockHash o).result = .error ⟨some (.httpErr 503)⟩ := by
  have he : o = fun _ => .resp 503 none := funext ho
  subst he
  have h := fetchLatestBlockHashGo_const503 RETRY_CONFIG.maxRetries 0 none ⟨0, []⟩
  constructor
  · simp only [fetchLatestBlockHash]
    rw [h.2]
    simp [RETRY_CONFIG]
  · simp only [fetchLatestBlockHash]
    exact h.1

/-- Witness for C2 at the constant 503 source. -/
theorem c2_retry_ceiling_witness :
    (∀ n, (fun _ => FetchOutcome.resp 503 none : Oracle) n = .resp 503 none) ∧
    (fetchLatestBlockHash fun _ => .resp 503 none).result = .error ⟨some (.httpErr 503)⟩ :=
  ⟨fun _ => rfl, (c2_retry_ceiling (fun _ => .resp 503 none) fun _ => rfl).2⟩

/-- C3 counterexample: against a source answering every request with HTTP
404, `fetchLatestBlockHash` does not fail after a single attempt with no
backoff — the 4xx throw is caught by the outer loop's `catch`, which sleeps
and retries, for 4 attempts and 3 backoff delays in total. -/
theorem c3_counterexample :
    (fetchLatestBlockHash fun _ => .resp 404 none).requests = 4 ∧
    (fetchLatestBlockHash fun _ => .resp 404 none).delays = [1000, 2000, 4000] ∧
    (fetchLatestBlockHash fun _ => .resp 404 none).requests ≠ 1 := by
  have h := fetchLatestBlockHashGo_4xx 404 (by omega) (by omega) RETRY_CONFIG.maxRetries
    0 none ⟨0, []⟩
  refine ⟨?_, ?_, ?_⟩
  · simp only [fetchLatestBlockHash]
    rw [h]
    simp [RETRY_CONFIG]
  · simp only [fetchLatestBlockHash]
    rw [h]
    dsimp only
    simp only [RETRY_CONFIG]
    decide
  · simp only [fetchLatestBlockHash]
    rw [h]
    simp [RETRY_CONFIG]

/-- C3 (amended): a 4xx response is not retried inside `fetchWithRetry`
(one call makes exactly one HTTP attempt), but the outer loop of
`fetchLatestBlockHash` catches the thrown HTTP error and retries the whole
fetch with backoff, so an always-4xx source sees `maxRetries + 1 = 4`
attempts with delays 1000, 2000, 4000 before the final error. -/
theorem c3_4xx_not_immediately_fatal (o : Oracle) (s : Nat)
    (h4 : 400 ≤ s) (h5 : s ≤ 499) (ho : ∀ n, o n = .resp s none) :
    (fetchWithRetryRun o).2.requests = 1 ∧
    (fetchLatestBlockHash o).requests = RETRY_CONFIG.maxRetries + 1 ∧
    (fetchLatestBlockHash o).delays = [1000, 2000, 4000] ∧
    (fetchLatestBlockHash o).result = .error ⟨some (.httpErr s)⟩ := by
  have he : o = fun _ => .resp s none := funext ho
  subst he
  have hs : ¬ 500 ≤ s := by omega
  have hnok : ¬ (200 ≤ s ∧ s ≤ 299) := by omega
  have h := fetchLatestBlockHashGo_4xx s hs hnok RETRY_CONFIG.maxRetries 0 none ⟨0, []⟩
  refine ⟨?_, ?_, ?_, ?_⟩
  · rw [fetchWithRetryRun, fetchWithRetry_nonRetried _ s none (fun _ => rfl) hs]
  · simp only [fetchLatestBlockHash]
    rw [h]
    dsimp only
    omega
  · simp only [fetchLatestBlockHash]
    rw [h]
    dsimp only
    simp only [RETRY_CONFIG]
    decide
  · simp only [fetchLatestBlockHash]
    rw [h]

/-- Witness for C3 at the constant 404 source. -/
theorem c3_4xx_not_immediately_fatal_witness :
    (400 ≤ 404 ∧ 404 ≤ 499 ∧
      ∀ n, (fun _ => FetchOutcome.resp 404 none : Oracle) n = .resp 404 none) ∧
    (fetchLatestBlockHash fun _ => .resp 404 none).result = .error ⟨some (.httpErr 404)⟩ :=
  ⟨⟨by decide, by decide, fun _ => rfl⟩,
    (c3_4xx_not_immediately_fatal (fun _ => .resp 404 none) 404 (by decide) (by decide)
      fun _ => rfl).2.2.2⟩

/-- C4 counterexample: in `fetchWithRetry` against an always-503 source the
delays slept before retry attempts 1, 2, 3 are 1000, 2000, 4000 ms — not the
2000, 4000, 8000 ms the claimed formula
`min(maxDelay, initial * multiplier ^ k)` yields for k = 1, 2, 3. -/
theorem c4_counterexample :
    (fetchWithRetryRun fun _ => .resp 503 none).2.delays = [1000, 2000, 4000] ∧
    [1000, 2000, 4000] ≠
      [min RETRY_CONFIG.maxDelayMs
        (RETRY_CONFIG.initialDelayMs * RETRY_CONFIG.backoffMultiplier ^ 1),
       min RETRY_CONFIG.maxDelayMs
        (RETRY_CONFIG.initialDelayMs * RETRY_CONFIG.backoffMultiplier ^ 2),
       min RETRY_CONFIG.maxDelayMs
        (RETRY_CONFIG.initialDelayMs * RETRY_CONFIG.backoffMultiplier ^ 3)] := by
  constructor
  · rw [fetchWithRetryRun, fetchWithRetry_const503]
    dsimp only
    simp only [RETRY_CONFIG]
    decide
  · decide

/-- C4 (amended): the delay slept before retry attempt `k ≥ 1` is
`getBackoffDelay (k-1) = min(maxDelay, initial * multiplier ^ (k-1))` — the
exponent is the zero-based index of the attempt that just failed — so an
always-5xx `fetchWithRetry` run sleeps `[1000, 2000, 4000]`. -/
theorem c4_backoff_schedule (o : Oracle) (ho : ∀ n, o n = .resp 503 none) :
    (fetchWithRetryRun o).2.delays =
      (List.range RETRY_CONFIG.maxRetries).map
        (fun k => min RETRY_CONFIG.maxDelayMs
          (RETRY_CONFIG.initialDelayMs * RETRY_CONFIG.backoffMultiplier ^ k)) ∧
    ∀ attempt, getBackoffDelay attempt =
      min RETRY_CONFIG.maxDelayMs
        (RETRY_CONFIG.initialDelayMs * RETRY_CONFIG.backoffMultiplier ^ attempt) := by
  have he : o = fun _ => .resp 503 none := funext ho
  subst he
  constructor
  · rw [fetchWithRetryRun, fetchWithRetry_const503]
    dsimp only
    simp only [RETRY_CONFIG]
    decide
  · exact fun attempt => Nat.min_comm _ _

/-- Witness for C4 at the constant 503 source. -/
theorem c4_backoff_schedule_witness :
    (∀ n, (fun _ => FetchOutcome.resp 503 none : Oracle) n = .resp 503 none) ∧
    (fetchWithRetryRun fun _ => .resp 503 none).2.delays =
      (List.range RETRY_CONFIG.maxRetries).map
        (fun k => min RETRY_CONFIG.maxDelayMs
          (RETRY_CONFIG.initialDelayMs * RETRY_CONFIG.backoffMultiplier ^ k)) :=
  ⟨fun _ => rfl, (c4_backoff_schedule (fun _ => .resp 503 none) fun _ => rfl).1⟩


/-- JS `a || b` with an absent `a` is `b`. -/
theorem jsOrStr_none (b : String) : jsOrStr none b = b := rfl

/-- C10: on an array input the primary `hash` is the normalization of the
first element whose `hash`/`id` passes hex validation — the head of the
valid-hash list — while `metadata` always comes from element 0 (when
truthy); with an invalid element 0 and a valid later element the two
therefore describe different blocks. -/
theorem c10_array_hash_metadata_mismatch (cfg : Config) (b0 : BlockData) (rest : List BlockData) :
    (parseLedger cfg (some (.arr (b0 :: rest)))).hash =
      some (normalizeHash ((b0 :: rest).filterMap fun b => parseBlockHash (some b)).head?) ∧
    (parseLedger cfg (some (.arr (b0 :: rest)))).metadata =
      some (if jsTruthyBlock b0 then extractBlockMetadata (some b0) else {}) := by
  simp [parseLedger, parseBlockArray]

/-- C8 counterexample: `publish` can throw — when ensuring the output
directory fails with a code other than `EEXIST` (here `EACCES`), the error
is rethrown instead of being collected into the result. -/
theorem c8_counterexample :
    publish { mkdirErr := some "EACCES" } "base" {} "now"
      ⟨[], none, none, none, "sha256", none, none⟩ {} = Except.error "EACCES" := by
  decide

/-- C8 (amended): provided the output-directory `mkdir` does not fail (or
fails with `EEXIST`), the three format writes are attempted independently;
when the JSON write fails while CSS and HTML succeed, the result is
`success = false`, `outputs` holding exactly the CSS and HTML entries, and
the JSON failure recorded in `errors`. -/
theorem c8_partial_publish (fs : FsModel) (baseDir : String) (cfg : Config) (now : String)
    (cd : ColorData) (m : String)
    (hmk : fs.mkdirErr = none ∨ fs.mkdirErr = some "EEXIST")
    (hcss : fs.writeErr
      (pathJoin (pathJoin baseDir (jsOrStr (cfg.output.bind (·.publicDir)) "public")) "colors.css")
      (generateCssVariables now cd) = none)
    (hjson : fs.writeErr
      (pathJoin (pathJoin baseDir (jsOrStr (cfg.output.bind (·.publicDir)) "public")) "colors.json")
      (generateJsonOutput now cd) = some m)
    (hhtml : fs.writeErr
      (pathJoin (pathJoin baseDir (jsOrStr (cfg.output.bind (·.publicDir)) "public")) "colors-preview.html")
      (generateHtmlPreview cd) = none) :
    publish fs baseDir cfg now cd {} =
      Except.ok
        { success := false,
          outputs :=
            [⟨"css", pathJoin (pathJoin baseDir (jsOrStr (cfg.output.bind (·.publicDir)) "public"))
                "colors.css"⟩,
             ⟨"html", pathJoin (pathJoin baseDir (jsOrStr (cfg.output.bind (·.publicDir)) "public"))
                "colors-preview.html"⟩],
          errors := ["Failed to write JSON: " ++ m] } := by
  rcases hmk with hmk | hmk <;>
    simp [publish, publishToFile, publishToFile.publishWrites, jsOrStr_none, hmk,
      hcss, hjson, hhtml]

/-- Witness for C8: the filesystem `fsJsonFail` fails exactly the JSON
write. -/
theorem c8_partial_publish_witness :
    ((fsJsonFail.mkdirErr = none ∨ fsJsonFail.mkdirErr = some "EEXIST") ∧
      fsJsonFail.writeErr
        (pathJoin (pathJoin "base" (jsOrStr (({} : Config).output.bind (·.publicDir)) "public"))
          "colors.css")
        (generateCssVariables "t" ⟨[], none, none, none, "sha256", none, none⟩) = none ∧
      fsJsonFail.writeErr
        (pathJoin (pathJoin "base" (jsOrStr (({} : Config).output.bind (·.publicDir)) "public"))
          "colors.json")
        (generateJsonOutput "t" ⟨[], none, none, none, "sha256", none, none⟩) = some "disk full" ∧
      fsJsonFail.writeErr
        (pathJoin (pathJoin "base" (jsOrStr (({} : Config).output.bind (·.publicDir)) "public"))
          "colors-preview.html")
        (generateHtmlPreview ⟨[], none, none, none, "sha256", none, none⟩) = none) ∧
    publish fsJsonFail "base" {} "t" ⟨[], none, none, none, "sha256", none, none⟩ {} =
      Except.ok
        { success := false,
          outputs :=
            [⟨"css", pathJoin (pathJoin "base" (jsOrStr (({} : Config).output.bind (·.publicDir))
                "public")) "colors.css"⟩,
             ⟨"html", pathJoin (pathJoin "base" (jsOrStr (({} : Config).output.bind (·.publicDir))
                "public")) "colors-preview.html"⟩],
          errors := ["Failed to write JSON: " ++ "disk full"] } := by
  refine ⟨⟨Or.inl rfl, by decide, by decide, by decide⟩, ?_⟩
  exact c8_partial_publish fsJsonFail "base" {} "t" ⟨[], none, none, none, "sha256", none, none⟩
    "disk full" (Or.inl rfl) (by decide) (by decide) (by decide)



/-- The hex digest has exactly 64 characters (32 bytes, two nibbles each). -/
theorem sha256_toList_length (s : String) : (sha256 s).toList.length = 64 := by
  show ((sha2StateBytes (sha256Words (utf8Bytes s))).map toHexByte).flatten.length = 64
  generalize sha256Words (utf8Bytes s) = st
  rfl

/-- Length of a `substring` slice. -/
theorem jsSubstring_length (s : String) (a b : Nat) :
    (jsSubstring s a b).length = min (b - a) (s.toList.length - a) := by
  show ((s.toList.drop a).take (b - a)).length = _
  rw [List.length_take, List.length_drop]

/-- A 6-character window into the digest is clipped by the digest end. -/
theorem jsSubstring_sha256_length (s : String) (a : Nat) :
    (jsSubstring (sha256 s) a (a + 6)).length = min 6 (64 - a) := by
  rw [jsSubstring_length, sha256_toList_length]
  congr 1
  omega

/-- The palette loop of `deriveColors`, as a window walk over the digest:
index `i` contributes a swatch exactly when the window starting at
`(i*6) mod 64` still has 6 characters (shared by the C5 theorems). -/
theorem deriveColors_palette_windows (cfg : Config) (now : String) (pd : ParsedData)
    (h : String) (hph : pd.hash = some h) (hne : h ≠ "") :
    (deriveColors cfg now (some pd)).palette =
      (List.range (jsOrNat (cfg.colorDerivation.bind (·.paletteSize)) 6)).filterMap fun i =>
        if i * 6 % 64 ≤ 58 then
          some { index := i,
                 hsl := (deriveSingleColor
                   (jsSubstring (sha256 h) (i * 6 % 64) (i * 6 % 64 + 6)) cfg).hsl,
                 css := (deriveSingleColor
                   (jsSubstring (sha256 h) (i * 6 % 64) (i * 6 % 64 + 6)) cfg).css,
                 hex := (deriveSingleColor
                   (jsSubstring (sha256 h) (i * 6 % 64) (i * 6 % 64 + 6)) cfg).hex,
                 fromHash := jsSubstring h 0 8 ++ "..." }
        else none := by
  have hb : (some pd).bind (fun p => p.hash) = some h := by simp [hph]
  simp only [deriveColors, hb]
  rw [if_neg hne]
  dsimp only
  refine congrArg₂ List.filterMap ?_ rfl
  funext i
  have hoff : i * 6 % 64 < 64 := Nat.mod_lt _ (by omega)
  by_cases hle : i * 6 % 64 ≤ 58
  · rw [if_pos (by rw [jsSubstring_sha256_length]; omega), if_pos hle]
  · rw [if_neg (by rw [jsSubstring_sha256_length]; omega), if_neg hle]

/-- C5 (amended): for a non-empty hash the palette is the window walk over
`(i*6) mod 64`: index `i` contributes exactly when its 6-character window
fits inside the 64-character digest (offset at most 58), in which case the
swatch is `deriveSingleColor` of that window with index `i`; offsets 60 and
62 (i ≡ 10 or 21 mod 32) yield a truncated window and the swatch is
omitted, so palettes of size > 10 drop those colors rather than reuse
earlier digest bytes. -/
theorem c5_cyclic_windows (cfg : Config) (now : String) (pd : ParsedData)
    (h : String) (hph : pd.hash = some h) (hne : h ≠ "") :
    (deriveColors cfg now (some pd)).palette =
      (List.range (jsOrNat (cfg.colorDerivation.bind (·.paletteSize)) 6)).filterMap fun i =>
        if i * 6 % 64 ≤ 58 then
          some { index := i,
                 hsl := (deriveSingleColor
                   (jsSubstring (sha256 h) (i * 6 % 64) (i * 6 % 64 + 6)) cfg).hsl,
                 css := (deriveSingleColor
                   (jsSubstring (sha256 h) (i * 6 % 64) (i * 6 % 64 + 6)) cfg).css,
                 hex := (deriveSingleColor
                   (jsSubstring (sha256 h) (i * 6 % 64) (i * 6 % 64 + 6)) cfg).hex,
                 fromHash := jsSubstring h 0 8 ++ "..." }
        else none :=
  deriveColors_palette_windows cfg now pd h hph hne

/-- Witness for C5 at the hash `"abc"` and the default configuration. -/
theorem c5_cyclic_windows_witness :
    (({ hash := some "abc" } : ParsedData).hash = some "abc" ∧ "abc" ≠ "") ∧
    (deriveColors {} "t" (some { hash := some "abc" })).palette =
      (List.range (jsOrNat (({} : Config).colorDerivation.bind (·.paletteSize)) 6)).filterMap
        fun i =>
        if i * 6 % 64 ≤ 58 then
          some { index := i,
                 hsl := (deriveSingleColor
                   (jsSubstring (sha256 "abc") (i * 6 % 64) (i * 6 % 64 + 6)) {}).hsl,
                 css := (deriveSingleColor
                   (jsSubstring (sha256 "abc") (i * 6 % 64) (i * 6 % 64 + 6)) {}).css,
                 hex := (deriveSingleColor
                   (jsSubstring (sha256 "abc") (i * 6 % 64) (i * 6 % 64 + 6)) {}).hex,
                 fromHash := jsSubstring "abc" 0 8 ++ "..." }
        else none :=
  ⟨⟨rfl, by decide⟩, c5_cyclic_windows {} "t" { hash := some "abc" } "abc" rfl (by decide)⟩

/-- C5 counterexample: with `paletteSize = 11` the derived palette carries
the indices 0–9 only — there is no swatch with index 10, because the window
at offset `(10*6) mod 64 = 60` is truncated to 4 characters and skipped —
contradicting "one swatch for every index i in [0, paletteSize)". -/
theorem c5_counterexample :
    ((deriveColors { colorDerivation := some { paletteSize := some 11 } } "t"
        (some { hash := some "abc" })).palette.map fun sw => sw.index) =
      [0, 1, 2, 3, 4, 5, 6, 7, 8, 9] ∧
    ¬ ∃ sw ∈ (deriveColors { colorDerivation := some { paletteSize := some 11 } } "t"
        (some { hash := some "abc" })).palette, sw.index = 10 := by
  have hp := deriveColors_palette_windows { colorDerivation := some { paletteSize := some 11 } }
    "t" { hash := some "abc" } "abc" rfl (by decide)
  have hmap : ((deriveColors { colorDerivation := some { paletteSize := some 11 } } "t"
      (some { hash := some "abc" })).palette.map fun sw => sw.index) =
      [0, 1, 2, 3, 4, 5, 6, 7, 8, 9] := by
    rw [hp]
    decide
  refine ⟨hmap, ?_⟩
  rintro ⟨sw, hmem, hidx⟩
  have h10 : (10 : Nat) ∈ ((deriveColors { colorDerivation := some { paletteSize := some 11 } }
      "t" (some { hash := some "abc" })).palette.map fun sw => sw.index) := by
    rw [List.mem_map]
    exact ⟨sw, hmem, hidx⟩
  rw [hmap] at h10
  exact absurd h10 (by decide)


/-- `Math.round` of a value in `[0, n]` stays in `[0, n]`. -/
theorem jround_bounds (q : ℚ) (n : ℤ) (h0 : 0 ≤ q) (hn : q ≤ (n : ℚ)) :
    0 ≤ jround q ∧ jround q ≤ n := by
  constructor
  · rw [jround, Int.le_floor]
    have : ((0 : ℤ) : ℚ) = 0 := by norm_num
    rw [this]
    linarith
  · rw [jround, Int.floor_le_iff]
    linarith


/-- The hex digit characters parse back to their values. -/
theorem hexDigitVal_hexChar : ∀ k < 16, hexDigitVal (hexChar k) = some k := by
  decide

/-- A parsed hex digit is below 16. -/
theorem hexDigitVal_lt (c : Char) (d : Nat) (h : hexDigitVal c = some d) : d < 16 := by
  dsimp only [hexDigitVal] at h
  split_ifs at h with h1 h2 h3
  · cases h; omega
  · cases h; omega
  · cases h; omega

/-- `parseInt(·, 16)` of any character list is below `16 ^ length` (with the
accumulator folded in). -/
theorem parseHexDigits_lt (l : List Char) : ∀ acc : Nat,
    parseHexDigits l acc < (acc + 1) * 16 ^ l.length := by
  induction l with
  | nil =>
    intro acc
    simp [parseHexDigits]
  | cons c cs ih =>
    intro acc
    rw [parseHexDigits]
    cases hv : hexDigitVal c with
    | none =>
      have h1 : 1 ≤ 16 ^ (c :: cs).length := Nat.one_le_pow _ _ (by omega)
      calc acc < acc + 1 := by omega
        _ ≤ (acc + 1) * 16 ^ (c :: cs).length := Nat.le_mul_of_pos_right _ (by omega)
    | some d =>
      have hd := hexDigitVal_lt c d hv
      have hrec := ih (acc * 16 + d)
      have hle : (acc * 16 + d + 1) * 16 ^ cs.length ≤ (acc + 1) * 16 ^ (c :: cs).length := by
        have hstep : acc * 16 + d + 1 ≤ (acc + 1) * 16 := by omega
        calc (acc * 16 + d + 1) * 16 ^ cs.length ≤ ((acc + 1) * 16) * 16 ^ cs.length :=
              Nat.mul_le_mul_right _ hstep
          _ = (acc + 1) * 16 ^ (c :: cs).length := by
              rw [List.length_cons, pow_succ]
              ring
      exact lt_of_lt_of_le hrec hle

/-- `parseInt(s, 16)` is below `16 ^ s.length`. -/
theorem parseHex_lt (s : String) : parseHex s < 16 ^ s.length := by
  have h := parseHexDigits_lt s.toList 0
  simpa [parseHex] using h

/-- JS `q % 2` lands in `[0, 2)`. -/
theorem jmod2_bounds (q : ℚ) : 0 ≤ jmod2 q ∧ jmod2 q < 2 := by
  unfold jmod2
  constructor
  · have h := Int.floor_le (q / 2)
    linarith
  · have h := Int.lt_floor_add_one (q / 2)
    linarith

/-- A channel value in `[0, 1]` rounds into `[0, 255]`, so the `Int.toNat`
cast is lossless and the spec-side clamp is the identity on it. -/
theorem channel_eval (v m : ℚ) (h0 : 0 ≤ v + m) (h1 : v + m ≤ 1) :
    (jround ((v + m) * 255)).toNat < 256 ∧
    ((jround ((v + m) * 255)).toNat : ℤ) = clamp255 (jround ((v + m) * 255)) := by
  have hq0 : (0 : ℚ) ≤ (v + m) * 255 := by nlinarith
  have hq1 : (v + m) * 255 ≤ ((255 : ℤ) : ℚ) := by push_cast; nlinarith
  obtain ⟨hz0, hz1⟩ := jround_bounds _ 255 hq0 hq1
  constructor
  · omega
  · rw [Int.toNat_of_nonneg hz0]
    unfold clamp255
    omega

/-- Parsing the `#rrggbb` string assembled from three bytes recovers the
bytes. -/
theorem parseHexColor_bytes (n1 n2 n3 : Nat) (h1 : n1 < 256) (h2 : n2 < 256) (h3 : n3 < 256) :
    parseHexColor ⟨'#' :: (toHexByte n1 ++ toHexByte n2 ++ toHexByte n3)⟩ =
      some ((n1 : ℤ), (n2 : ℤ), (n3 : ℤ)) := by
  show parseHexColor ⟨['#', hexChar (n1 / 16), hexChar (n1 % 16), hexChar (n2 / 16),
    hexChar (n2 % 16), hexChar (n3 / 16), hexChar (n3 % 16)]⟩ = _
  rw [parseHexColor]
  dsimp only [String.toList]
  simp only [hexDigitVal_hexChar (n1 / 16) (by omega), hexDigitVal_hexChar (n1 % 16) (by omega),
    hexDigitVal_hexChar (n2 / 16) (by omega), hexDigitVal_hexChar (n2 % 16) (by omega),
    hexDigitVal_hexChar (n3 / 16) (by omega), hexDigitVal_hexChar (n3 % 16) (by omega)]
  refine congrArg some ?_
  refine congrArg₂ Prod.mk ?_ (congrArg₂ Prod.mk ?_ ?_) <;> push_cast <;> omega

/-- Core of the round-trip: for in-range `s`, `l` (any `h`), the hex string
`hslToHex` stores parses back to exactly the spec-side HSL→RGB conversion —
the two share the chroma/sector formula, every channel lands in `[0, 255]`
and the clamp is a no-op. -/
theorem parseHexColor_hslToHex (hsl : HSL)
    (hs0 : 0 ≤ hsl.s) (hs1 : hsl.s ≤ 100) (hl0 : 0 ≤ hsl.l) (hl1 : hsl.l ≤ 100) :
    parseHexColor (hslToHex hsl) = some (specHslToRgb hsl) := by
  have hsq0 : (0 : ℚ) ≤ (hsl.s : ℚ) / 100 := by
    have : (0 : ℚ) ≤ (hsl.s : ℚ) := by exact_mod_cast hs0
    linarith
  have hsq1 : (hsl.s : ℚ) / 100 ≤ 1 := by
    have : (hsl.s : ℚ) ≤ 100 := by exact_mod_cast hs1
    linarith
  have hlq0 : (0 : ℚ) ≤ (hsl.l : ℚ) / 100 := by
    have : (0 : ℚ) ≤ (hsl.l : ℚ) := by exact_mod_cast hl0
    linarith
  have hlq1 : (hsl.l : ℚ) / 100 ≤ 1 := by
    have : (hsl.l : ℚ) ≤ 100 := by exact_mod_cast hl1
    linarith
  simp only [hslToHex, specHslToRgb]
  set sq : ℚ := (hsl.s : ℚ) / 100 with hsq
  set lq : ℚ := (hsl.l : ℚ) / 100 with hlq
  set cq : ℚ := (1 - |2 * lq - 1|) * sq with hcq
  set xq : ℚ := cq * (1 - |jmod2 ((hsl.h : ℚ) / 60) - 1|) with hxq
  set mq : ℚ := lq - cq / 2 with hmq
  have habs : |2 * lq - 1| ≤ 1 := by
    rw [abs_le]
    constructor <;> linarith
  have hc0 : 0 ≤ cq := by
    rw [hcq]
    have : 0 ≤ 1 - |2 * lq - 1| := by linarith
    exact mul_nonneg this hsq0
  have hcle : cq ≤ 1 - |2 * lq - 1| := by
    rw [hcq]
    nlinarith [abs_nonneg (2 * lq - 1)]
  have hm0 : 0 ≤ mq := by
    rw [hmq]
    rcases abs_cases (2 * lq - 1) with ⟨he, _⟩ | ⟨he, _⟩ <;> rw [he] at hcle <;> linarith
  have hcm1 : cq + mq ≤ 1 := by
    rw [hmq]
    rcases abs_cases (2 * lq - 1) with ⟨he, _⟩ | ⟨he, _⟩ <;> rw [he] at hcle <;> linarith
  have hm1 : mq ≤ 1 := by linarith
  obtain ⟨hj0, hj2⟩ := jmod2_bounds ((hsl.h : ℚ) / 60)
  have hfac : |jmod2 ((hsl.h : ℚ) / 60) - 1| ≤ 1 := by
    rw [abs_le]
    constructor <;> linarith
  have hx0 : 0 ≤ xq := by
    rw [hxq]
    have : 0 ≤ 1 - |jmod2 ((hsl.h : ℚ) / 60) - 1| := by linarith
    exact mul_nonneg hc0 this
  have hxc : xq ≤ cq := by
    rw [hxq]
    nlinarith [abs_nonneg (jmod2 ((hsl.h : ℚ) / 60) - 1)]
  have hC := channel_eval cq mq (by linarith) (by linarith)
  have hX := channel_eval xq mq (by linarith) (by linarith)
  have hZ := channel_eval 0 mq (by linarith) (by linarith)
  split_ifs <;>
    (dsimp only
     rw [parseHexColor_bytes _ _ _ (by first
        | exact hC.1 | exact hX.1 | exact hZ.1) (by first
        | exact hC.1 | exact hX.1 | exact hZ.1) (by first
        | exact hC.1 | exact hX.1 | exact hZ.1)]
     refine congrArg some (congrArg₂ Prod.mk ?_ (congrArg₂ Prod.mk ?_ ?_)) <;>
       first | exact hC.2 | exact hX.2 | exact hZ.2)

/-- Interpolating between two values of `[0, 1]` by a factor in `[0, 1]`
stays in `[0, 1]`. -/
theorem lerp_bounds (a b t : ℚ) (ha0 : 0 ≤ a) (ha1 : a ≤ 1) (hb0 : 0 ≤ b) (hb1 : b ≤ 1)
    (ht0 : 0 ≤ t) (ht1 : t ≤ 1) : 0 ≤ a + t * (b - a) ∧ a + t * (b - a) ≤ 1 := by
  constructor <;> nlinarith

/-- With configuration ranges inside `[0, 1]`, the stored saturation and
lightness are percentages in `[0, 100]`. -/
theorem deriveSingleColor_hsl_bounds (seg : String) (cfg : Config)
    (hsat : RangeWithin01 ((cfg.colorDerivation.bind (·.saturationRange)).getD (3/5, 9/10)))
    (hlight : RangeWithin01 ((cfg.colorDerivation.bind (·.lightnessRange)).getD (2/5, 7/10))) :
    0 ≤ (deriveSingleColor seg cfg).hsl.s ∧ (deriveSingleColor seg cfg).hsl.s ≤ 100 ∧
    0 ≤ (deriveSingleColor seg cfg).hsl.l ∧ (deriveSingleColor seg cfg).hsl.l ≤ 100 := by
  obtain ⟨ha0, ha1, hb0, hb1⟩ := hsat
  obtain ⟨hc0, hc1, hd0, hd1⟩ := hlight
  have hsatn : parseHex (jsSubstring seg 3 5) ≤ 255 := by
    have h := parseHex_lt (jsSubstring seg 3 5)
    have hlen : (jsSubstring seg 3 5).length ≤ 2 := by
      rw [jsSubstring_length]; omega
    have hp : 16 ^ (jsSubstring seg 3 5).length ≤ 16 ^ 2 :=
      Nat.pow_le_pow_right (by omega) hlen
    omega
  have hlightn : parseHex (jsSubstring seg 5 6) ≤ 15 := by
    have h := parseHex_lt (jsSubstring seg 5 6)
    have hlen : (jsSubstring seg 5 6).length ≤ 1 := by
      rw [jsSubstring_length]; omega
    have hp : 16 ^ (jsSubstring seg 5 6).length ≤ 16 ^ 1 :=
      Nat.pow_le_pow_right (by omega) hlen
    omega
  have ht0 : (0 : ℚ) ≤ (parseHex (jsSubstring seg 3 5) : ℚ) / 255 := by positivity
  have ht1 : (parseHex (jsSubstring seg 3 5) : ℚ) / 255 ≤ 1 := by
    have : (parseHex (jsSubstring seg 3 5) : ℚ) ≤ 255 := by exact_mod_cast hsatn
    linarith
  have hu0 : (0 : ℚ) ≤ (parseHex (jsSubstring seg 5 6) : ℚ) / 15 := by positivity
  have hu1 : (parseHex (jsSubstring seg 5 6) : ℚ) / 15 ≤ 1 := by
    have : (parseHex (jsSubstring seg 5 6) : ℚ) ≤ 15 := by exact_mod_cast hlightn
    linarith
  obtain ⟨hsA, hsB⟩ := lerp_bounds _ _ _ ha0 ha1 hb0 hb1 ht0 ht1
  obtain ⟨hlA, hlB⟩ := lerp_bounds _ _ _ hc0 hc1 hd0 hd1 hu0 hu1
  have hs_eq : (deriveSingleColor seg cfg).hsl.s =
      jround ((((cfg.colorDerivation.bind (·.saturationRange)).getD (3/5, 9/10)).1 +
        (parseHex (jsSubstring seg 3 5) : ℚ) / 255 *
          (((cfg.colorDerivation.bind (·.saturationRange)).getD (3/5, 9/10)).2 -
           ((cfg.colorDerivation.bind (·.saturationRange)).getD (3/5, 9/10)).1)) * 100) := rfl
  have hl_eq : (deriveSingleColor seg cfg).hsl.l =
      jround ((((cfg.colorDerivation.bind (·.lightnessRange)).getD (2/5, 7/10)).1 +
        (parseHex (jsSubstring seg 5 6) : ℚ) / 15 *
          (((cfg.colorDerivation.bind (·.lightnessRange)).getD (2/5, 7/10)).2 -
           ((cfg.colorDerivation.bind (·.lightnessRange)).getD (2/5, 7/10)).1)) * 100) := rfl
  rw [hs_eq, hl_eq]
  obtain ⟨hS0, hS1⟩ := jround_bounds
    ((((cfg.colorDerivation.bind (·.saturationRange)).getD (3/5, 9/10)).1 +
      (parseHex (jsSubstring seg 3 5) : ℚ) / 255 *
        (((cfg.colorDerivation.bind (·.saturationRange)).getD (3/5, 9/10)).2 -
         ((cfg.colorDerivation.bind (·.saturationRange)).getD (3/5, 9/10)).1)) * 100)
    100 (by nlinarith) (by push_cast; nlinarith)
  obtain ⟨hL0, hL1⟩ := jround_bounds
    ((((cfg.colorDerivation.bind (·.lightnessRange)).getD (2/5, 7/10)).1 +
      (parseHex (jsSubstring seg 5 6) : ℚ) / 15 *
        (((cfg.colorDerivation.bind (·.lightnessRange)).getD (2/5, 7/10)).2 -
         ((cfg.colorDerivation.bind (·.lightnessRange)).getD (2/5, 7/10)).1)) * 100)
    100 (by nlinarith) (by push_cast; nlinarith)
  exact ⟨hS0, hS1, hL0, hL1⟩

/-- Every palette swatch stores `hex = hslToHex hsl`, its HSL coming from
`deriveSingleColor` on some digest window. -/
theorem mem_palette_data (cfg : Config) (now : String) (pd : Option ParsedData)
    (sw : Swatch) (hmem : sw ∈ (deriveColors cfg now pd).palette) :
    sw.hex = hslToHex sw.hsl ∧ ∃ seg : String, sw.hsl = (deriveSingleColor seg cfg).hsl := by
  rcases pd with _ | p
  · have hnil : (deriveColors cfg now none).palette = [] := rfl
    rw [hnil] at hmem
    cases hmem
  · rcases hp : p.hash with _ | h
    · have hnil : (deriveColors cfg now (some p)).palette = [] := by
        simp [deriveColors, hp]
      rw [hnil] at hmem
      cases hmem
    · by_cases hh : h = ""
      · subst hh
        have hnil : (deriveColors cfg now (some p)).palette = [] := by
          simp [deriveColors, hp]
        rw [hnil] at hmem
        cases hmem
      · rw [deriveColors_palette_windows cfg now p h hp hh, List.mem_filterMap] at hmem
        obtain ⟨i, _, hfi⟩ := hmem
        by_cases hle : i * 6 % 64 ≤ 58
        · rw [if_pos hle, Option.some.injEq] at hfi
          subst hfi
          exact ⟨rfl, _, rfl⟩
        · rw [if_neg hle] at hfi
          cases hfi

/-- The accent, when present, stores `hex = hslToHex hsl` and shares its
saturation and lightness with some palette swatch (the primary). -/
theorem accent_data (cfg : Config) (now : String) (pd : Option ParsedData)
    (ac : AccentColor) (hac : (deriveColors cfg now pd).accentColor = some ac) :
    ∃ p ∈ (deriveColors cfg now pd).palette,
      ac.hex = hslToHex ac.hsl ∧ ac.hsl.s = p.hsl.s ∧ ac.hsl.l = p.hsl.l := by
  rcases pd with _ | p
  · have hnone : (deriveColors cfg now none).accentColor = none := rfl
    rw [hnone] at hac
    cases hac
  · rcases hp : p.hash with _ | h
    · have hnone : (deriveColors cfg now (some p)).accentColor = none := by
        simp [deriveColors, hp]
      rw [hnone] at hac
      cases hac
    · by_cases hh : h = ""
      · subst hh
        have hnone : (deriveColors cfg now (some p)).accentColor = none := by
          simp [deriveColors, hp]
        rw [hnone] at hac
        cases hac
      · have hb : (some p).bind (fun x => x.hash) = some h := by simp [hp]
        have hstruct : (deriveColors cfg now (some p)).accentColor =
            (deriveColors cfg now (some p)).palette.head?.map (fun q =>
              ({ hsl := ⟨(q.hsl.h + 180) % 360, q.hsl.s, q.hsl.l⟩,
                 css := "hsl(" ++ toString ((q.hsl.h + 180) % 360 : ℤ) ++ ", " ++
                   toString q.hsl.s ++ "%, " ++ toString q.hsl.l ++ "%)",
                 hex := hslToHex ⟨(q.hsl.h + 180) % 360, q.hsl.s, q.hsl.l⟩ } : AccentColor)) := by
          simp only [deriveColors, hb]
          rw [if_neg hh]
        rw [hstruct, Option.map_eq_some'] at hac
        obtain ⟨q, hq, hfq⟩ := hac
        refine ⟨q, List.mem_of_mem_head? hq, ?_, ?_, ?_⟩ <;> rw [← hfq]

/-- C9: for every ColorSwatch produced by derivation — palette entries and
the accent — the stored `hex` parses to RGB channels within ±1 (in fact
exactly equal) of the spec-side standard piecewise HSL→RGB conversion of
the stored `hsl`, provided the configured ranges are fractions in [0, 1] as
the data model prescribes. -/
theorem c9_roundtrip (cfg : Config) (now : String) (pd : Option ParsedData)
    (hsat : RangeWithin01 ((cfg.colorDerivation.bind (·.saturationRange)).getD (3/5, 9/10)))
    (hlight : RangeWithin01 ((cfg.colorDerivation.bind (·.lightnessRange)).getD (2/5, 7/10))) :
    (∀ sw ∈ (deriveColors cfg now pd).palette, roundTripOK sw.hex sw.hsl) ∧
    ∀ ac, (deriveColors cfg now pd).accentColor = some ac → roundTripOK ac.hex ac.hsl := by
  have key : ∀ hsl : HSL, 0 ≤ hsl.s → hsl.s ≤ 100 → 0 ≤ hsl.l → hsl.l ≤ 100 →
      roundTripOK (hslToHex hsl) hsl := fun hsl a b c d =>
    ⟨(specHslToRgb hsl).1, (specHslToRgb hsl).2.1, (specHslToRgb hsl).2.2,
      by rw [parseHexColor_hslToHex hsl a b c d], by simp, by simp, by simp⟩
  constructor
  · intro sw hmem
    obtain ⟨hhex, seg, hhsl⟩ := mem_palette_data cfg now pd sw hmem
    obtain ⟨b1, b2, b3, b4⟩ := deriveSingleColor_hsl_bounds seg cfg hsat hlight
    rw [hhex, hhsl]
    exact key _ b1 b2 b3 b4
  · intro ac hac
    obtain ⟨q, hqmem, hhex, hs, hl⟩ := accent_data cfg now pd ac hac
    obtain ⟨_, seg, hqhsl⟩ := mem_palette_data cfg now pd q hqmem
    obtain ⟨b1, b2, b3, b4⟩ := deriveSingleColor_hsl_bounds seg cfg hsat hlight
    rw [hhex]
    refine key ac.hsl ?_ ?_ ?_ ?_
    · rw [hs, hqhsl]; exact b1
    · rw [hs, hqhsl]; exact b2
    · rw [hl, hqhsl]; exact b3
    · rw [hl, hqhsl]; exact b4

/-- Witness for C9 at the default configuration and the hash `"abc"`. -/
theorem c9_roundtrip_witness :
    (RangeWithin01 ((({} : Config).colorDerivation.bind (·.saturationRange)).getD (3/5, 9/10)) ∧
     RangeWithin01 ((({} : Config).colorDerivation.bind (·.lightnessRange)).getD (2/5, 7/10))) ∧
    (∀ sw ∈ (deriveColors {} "t" (some { hash := some "abc" })).palette,
      roundTripOK sw.hex sw.hsl) ∧
    ∀ ac, (deriveColors {} "t" (some { hash := some "abc" })).accentColor = some ac →
      roundTripOK ac.hex ac.hsl := by
  have h1 : RangeWithin01 ((({} : Config).colorDerivation.bind (·.saturationRange)).getD
      (3/5, 9/10)) := ⟨by norm_num, by norm_num, by norm_num, by norm_num⟩
  have h2 : RangeWithin01 ((({} : Config).colorDerivation.bind (·.lightnessRange)).getD
      (2/5, 7/10)) := ⟨by norm_num, by norm_num, by norm_num, by norm_num⟩
  exact ⟨⟨h1, h2⟩, c9_roundtrip {} "t" (some { hash := some "abc" }) h1 h2⟩

end BlockHash
